import Mathlib

/-!
Verification of the multi-agent QA pipeline (`src/app/core/agents/agents.py`
and `src/app/core/agents/graph.py`): the plan parser, the four stage node
functions, and the orchestration entry point `run_qa_flow`.

Strings are modelled as Lean `String`; Python string primitives used by the
code (`str.strip`, `str.split("\n")`, `str.startswith`, slicing, `"\n".join`)
are embedded as executable character-list functions below.
-/

namespace QAPipeline

/-- Python `str.strip(chars)` on a character list: remove every leading and
trailing character that belongs to `cs`. -/
def stripCharsList (cs : List Char) (l : List Char) : List Char :=
  ((l.dropWhile (fun c => c ∈ cs)).reverse.dropWhile (fun c => c ∈ cs)).reverse

/-- Python `str.strip(chars)` on a `String`. -/
def stripChars (cs : List Char) (s : String) : String :=
  String.mk (stripCharsList cs s.toList)

/-- Python `str.strip()` (no argument): remove leading and trailing whitespace. -/
def pyStrip (s : String) : String :=
  String.mk (((s.toList.dropWhile Char.isWhitespace).reverse.dropWhile Char.isWhitespace).reverse)

/-- Whether the first list is a prefix of the second. -/
def charsPrefixOf : List Char → List Char → Bool
  | [], _ => true
  | _ :: _, [] => false
  | p :: ps, c :: cs => (p == c) && charsPrefixOf ps cs

/-- Python `str.startswith(pre)`. -/
def pyStartsWith (s pre : String) : Bool :=
  charsPrefixOf pre.toList s.toList

/-- Split a character list at every occurrence of `sep`, keeping empty pieces,
as Python `str.split(sep)` does for a one-character separator. -/
def splitCharsOn (sep : Char) : List Char → List (List Char)
  | [] => [[]]
  | c :: cs =>
    let r := splitCharsOn sep cs
    if c = sep then [] :: r
    else
      match r with
      | h :: t => (c :: h) :: t
      | [] => [[c]]

/-- Python `content.split("\n")`. -/
def pySplitLines (s : String) : List String :=
  (splitCharsOn (Char.ofNat 10) s.toList).map String.mk

/-- Python `sep.join(xs)`. -/
def pyJoin (sep : String) : List String → String
  | [] => ""
  | [x] => x
  | x :: y :: xs => x ++ sep ++ pyJoin sep (y :: xs)

/-- Python `s[:n]`: the first `n` characters of `s`. -/
def pyTake (s : String) (n : Nat) : String :=
  String.mk (s.toList.take n)

/-- Python truthiness test `if s[0].isdigit()` guarded by `if line`:
true iff the string is non-empty and its first character is a digit. -/
def firstIsDigit (s : String) : Bool :=
  match s.toList with
  | [] => false
  | c :: _ => c.isDigit

/-- Rendering of an optional string inside a Python f-string:
`None` renders as the literal text "None", a string renders as itself. -/
def pyStrOptStr : Option String → String
  | none => "None"
  | some s => s

/-! ## Plan parser (`_parse_plan_and_subquestions`, agents.py lines 31-64) -/

/-- The parser's loop state: the two mode flags and the two collected lists. -/
structure ParseAcc where
  in_plan : Bool
  in_subq : Bool
  plan_lines : List String
  sub_questions : List String
deriving Repr, DecidableEq

/-- One iteration of the parser loop of `_parse_plan_and_subquestions`
(agents.py lines 43-59) on a raw input line. -/
def processLine (acc : ParseAcc) (rawLine : String) : ParseAcc :=
  let line := pyStrip rawLine
  if pyStartsWith line "plan:" then
    { acc with in_plan := true, in_subq := false }
  else if pyStartsWith line "sub_questions:" then
    { acc with in_plan := false, in_subq := true }
  else if acc.in_plan && firstIsDigit line then
    { acc with plan_lines := acc.plan_lines ++ [line] }
  else if acc.in_subq && pyStartsWith line "-" then
    { acc with sub_questions :=
        acc.sub_questions ++ [stripChars [Char.ofNat 34] (stripChars [Char.ofNat 45, Char.ofNat 32] line)] }
  else
    acc

/-- The accumulator after the parser's loop over all lines of `content`. -/
def parseAcc (content : String) : ParseAcc :=
  (pySplitLines content).foldl processLine ⟨false, false, [], []⟩

/-- `_parse_plan_and_subquestions` (agents.py lines 31-64). -/
def parse_plan_and_subquestions (content : String) :
    Option String × Option (List String) :=
  if content = "" then (none, none)
  else
    let acc := parseAcc content
    ((if acc.plan_lines = [] then none
      else some (pyJoin "\n" acc.plan_lines)),
     (if acc.sub_questions = [] then none else some acc.sub_questions))

/-- The sub-question line transformation the specification describes, stated
from the spec's words for comparison with `processLine`: remove only a
leading "- ", then the surrounding quote characters. -/
def claimedSubStrip (line : String) : String :=
  stripChars [Char.ofNat 34]
    (if pyStartsWith line "- " then String.mk (line.toList.drop 2) else line)

/-! ## Data model -/

/-- One entry of the conversation history: a Python dict
`{"role": ..., "content": ...}` as built in graph.py and agents.py. -/
structure Msg where
  role : String
  content : String
deriving Repr, DecidableEq

/-- A LangChain message returned by or sent to an agent: `HumanMessage`,
`AIMessage` or `ToolMessage`, each carrying a content string. -/
inductive AgentMsg where
  | human (content : String)
  | ai (content : String)
  | tool (content : String)
deriving Repr, DecidableEq

/-- The content payload of an agent message. -/
def AgentMsg.content : AgentMsg → String
  | .human c => c
  | .ai c => c
  | .tool c => c

/-- Python `isinstance(msg, AIMessage)`. -/
def AgentMsg.isAi : AgentMsg → Bool
  | .ai _ => true
  | _ => false

/-- Python `isinstance(msg, ToolMessage)`. -/
def AgentMsg.isTool : AgentMsg → Bool
  | .tool _ => true
  | _ => false

/-- The pipeline state `QAState` threaded through the graph, with the fields
`run_qa_flow` initialises (graph.py lines 90-98). -/
structure QAState where
  question : String
  plan : Option String
  sub_questions : Option (List String)
  context : Option String
  draft_answer : Option String
  answer : Option String
  messages : List Msg
deriving Repr, DecidableEq

/-- The partial-state dictionary a node function returns: `none` for a field
means the key is absent from the returned dict. -/
structure StateDelta where
  question : Option String := none
  plan : Option (Option String) := none
  sub_questions : Option (Option (List String)) := none
  context : Option (Option String) := none
  draft_answer : Option (Option String) := none
  answer : Option (Option String) := none
  messages : Option (List Msg) := none
deriving Repr, DecidableEq

/-- Modelled from the spec: `state.py`, which declares the `QAState` channels
and their LangGraph reducers, is not part of the available sources. Per the
spec's data model, `messages` is "appended to, never rewritten in place" and
the Verify stage's delta "append[s] one assistant-role entry", while every
other field is a plain last-value channel, so merging a node's delta into the
running state overwrites each present scalar field and appends the delta's
`messages` entries to the history. -/
def applyDelta (s : QAState) (d : StateDelta) : QAState :=
  { question := d.question.getD s.question
    plan := d.plan.getD s.plan
    sub_questions := d.sub_questions.getD s.sub_questions
    context := d.context.getD s.context
    draft_answer := d.draft_answer.getD s.draft_answer
    answer := d.answer.getD s.answer
    messages :=
      match d.messages with
      | none => s.messages
      | some ms => s.messages ++ ms }

/-- An agent capability (`planner_agent.invoke` etc.): maps the message list
passed in `{"messages": ...}` to the resulting message list. The LLM backend
is an external collaborator, so it is a parameter of every node. -/
def Cap : Type := List AgentMsg → List AgentMsg

/-! ## `_extract_last_ai_content` (agents.py lines 23-28) -/

/-- `_extract_last_ai_content`: content of the last `AIMessage` in the list,
or `""` when there is none. -/
def extract_last_ai_content (messages : List AgentMsg) : String :=
  match messages.reverse.find? AgentMsg.isAi with
  | some m => m.content
  | none => ""

/-! ## `planner_node` (agents.py lines 93-127) -/

/-- The `agent_messages` list `planner_node` builds (agents.py lines 104-115):
role-tagged conversion of `messages_history[-6:]` (entries with any other
role are skipped), followed by the question as a `HumanMessage`. -/
def plannerAgentMessages (history : List Msg) (question : String) :
    List AgentMsg :=
  ((history.drop (history.length - 6)).filterMap (fun m =>
    if m.role = "user" then some (AgentMsg.human m.content)
    else if m.role = "assistant" then some (AgentMsg.ai m.content)
    else none)) ++ [AgentMsg.human question]

/-- `planner_node`: invoke the planning capability on the windowed history
plus question, parse its last AI reply, return `{plan, sub_questions}`. -/
def planner_node (cap : Cap) (s : QAState) : StateDelta :=
  let result := cap (plannerAgentMessages s.messages s.question)
  let content := extract_last_ai_content result
  let pr := parse_plan_and_subquestions content
  { plan := some pr.1, sub_questions := some pr.2 }

/-- The history window the specification describes for the Plan stage, stated
from the spec's words for comparison with `plannerAgentMessages`: the most
recent 6 turns, each turn one user entry and one assistant entry, i.e. a
window of 12 history entries. -/
def plannerAgentMessagesClaimed (history : List Msg) (question : String) :
    List AgentMsg :=
  ((history.drop (history.length - 12)).filterMap (fun m =>
    if m.role = "user" then some (AgentMsg.human m.content)
    else if m.role = "assistant" then some (AgentMsg.ai m.content)
    else none)) ++ [AgentMsg.human question]

/-! ## `retrieval_node` (agents.py lines 133-183) -/

/-- `formatted_subqs` (agents.py line 148): bulleted rendering of the
sub-questions, or the Python-falsy fallback "None" when the value is `None`
or the empty list. -/
def formattedSubqs : Option (List String) → String
  | some (x :: xs) => pyJoin "\n" ((x :: xs).map (fun sq => "- " ++ sq))
  | _ => "None"

/-- The content of the most recent assistant entry of the history:
`next((msg["content"] for msg in reversed(...) if msg["role"] == "assistant"), None)`
(agents.py lines 153-157). -/
def lastAssistantContent (history : List Msg) : Option String :=
  (history.reverse.find? (fun m => m.role == "assistant")).map Msg.content

/-- `context_note` (agents.py lines 150-159): the continuity hint, present
exactly when the history has at least 2 entries and the most recent
assistant entry has truthy (non-empty) content. -/
def contextNote (history : List Msg) : String :=
  if 2 ≤ history.length then
    match lastAssistantContent history with
    | some s =>
        if s = "" then ""
        else "\n[Previous answer excerpt: " ++ pyTake s 200 ++ "...]\n"
    | none => ""
  else ""

/-- `user_content` of `retrieval_node` (agents.py lines 161-167): the
composite retrieval query text. -/
def userContent (history : List Msg) (question : String)
    (plan : Option String) (subqs : Option (List String)) : String :=
  contextNote history ++ "Question: " ++ question ++ "\n\nPlan:\n" ++
    pyStrOptStr plan ++ "\n\nSub-Questions:\n" ++ formattedSubqs subqs

/-- The reversed scan of agents.py lines 173-179: content of the most recent
`ToolMessage`, or `""` when there is none. -/
def extractContext (messages : List AgentMsg) : String :=
  match messages.reverse.find? AgentMsg.isTool with
  | some m => m.content
  | none => ""

/-- `retrieval_node`: invoke the retrieval capability on the composite query
and return `{context}` from its most recent tool result. -/
def retrieval_node (cap : Cap) (s : QAState) : StateDelta :=
  let result := cap [AgentMsg.human (userContent s.messages s.question s.plan s.sub_questions)]
  { context := some (some (extractContext result)) }

/-! ## `summarization_node` (agents.py lines 186-207) -/

/-- `user_content` of `summarization_node` (agents.py line 197). -/
def sumUserContent (s : QAState) : String :=
  "Question: " ++ s.question ++ "\n\nContext:\n" ++ pyStrOptStr s.context

/-- `summarization_node`: invoke the summarization capability and return
`{draft_answer}` from its last AI reply. -/
def summarization_node (cap : Cap) (s : QAState) : StateDelta :=
  let result := cap [AgentMsg.human (sumUserContent s)]
  { draft_answer := some (some (extract_last_ai_content result)) }

/-! ## `verification_node` (agents.py lines 210-241) -/

/-- `user_content` of `verification_node` (agents.py lines 222-230). -/
def verUserContent (s : QAState) : String :=
  "Question: " ++ s.question ++ "\n\nContext:\n" ++ pyStrOptStr s.context ++
    "\n\nDraft Answer:\n" ++ pyStrOptStr s.draft_answer ++
    "\n\nPlease verify and correct the draft answer, removing any unsupported claims."

/-- `verification_node`: invoke the verification capability and return
`{answer, messages: [assistant entry]}` from its last AI reply. -/
def verification_node (cap : Cap) (s : QAState) : StateDelta :=
  let result := cap [AgentMsg.human (verUserContent s)]
  let answer := extract_last_ai_content result
  { answer := some (some answer), messages := some [Msg.mk "assistant" answer] }

/-! ## Orchestrator (graph.py) -/

/-- The compiled linear graph of `create_qa_graph` (graph.py lines 36-51):
planner, retrieval, summarization, verification in sequence, merging each
node's delta into the running state. -/
def runGraph (pc rc sc vc : Cap) (s0 : QAState) : QAState :=
  let s1 := applyDelta s0 (planner_node pc s0)
  let s2 := applyDelta s1 (retrieval_node rc s1)
  let s3 := applyDelta s2 (summarization_node sc s2)
  applyDelta s3 (verification_node vc s3)

/-- The per-thread checkpoint store of the `InMemorySaver`, observed through
`graph.get_state(config)`: the latest checkpointed state for a thread id,
or `none` for an unknown thread. -/
def Store : Type := String → Option QAState

/-- `thread_id = session_id if session_id else str(uuid.uuid4())`
(graph.py line 78); note Python truthiness: the empty string also triggers
fresh generation. `freshId` stands for the externally generated
`str(uuid.uuid4())`. -/
def threadIdFor (sessionId : Option String) (freshId : String) : String :=
  match sessionId with
  | some s => if s = "" then freshId else s
  | none => freshId

/-- The dictionary `run_qa_flow` returns: the final state's fields plus the
`session_id` key added on graph.py line 101. -/
structure RunResult where
  question : String
  plan : Option String
  sub_questions : Option (List String)
  context : Option String
  draft_answer : Option String
  answer : Option String
  messages : List Msg
  session_id : String
deriving Repr, DecidableEq

/-- `run_qa_flow` (graph.py lines 60-103): resolve the thread id, load the
checkpoint, build the initial state (appending the question to a non-empty
prior history, else starting a fresh single-entry history), run the graph,
and persist the final state under the thread id. Returns the result record
and the updated checkpoint store. -/
def run_qa_flow (pc rc sc vc : Cap) (store : Store) (question : String)
    (sessionId : Option String) (freshId : String) : RunResult × Store :=
  let tid := threadIdFor sessionId freshId
  let messages :=
    match store tid with
    | some st =>
        if st.messages = [] then [Msg.mk "user" question]
        else st.messages ++ [Msg.mk "user" question]
    | none => [Msg.mk "user" question]
  let s0 : QAState :=
    { question := question, plan := none, sub_questions := none,
      context := none, draft_answer := none, answer := none,
      messages := messages }
  let sf := runGraph pc rc sc vc s0
  (⟨sf.question, sf.plan, sf.sub_questions, sf.context, sf.draft_answer,
    sf.answer, sf.messages, tid⟩,
   fun k => if k = tid then some sf else store k)

/-! ## Helper lemmas -/

/-- A line that neither header matches and that is processed with both mode
flags off leaves the accumulator unchanged. -/
lemma processLine_inert (acc : ParseAcc) (l : String)
    (hp : pyStartsWith (pyStrip l) "plan:" = false)
    (hs : pyStartsWith (pyStrip l) "sub_questions:" = false)
    (hip : acc.in_plan = false) (his : acc.in_subq = false) :
    processLine acc l = acc := by
  simp [processLine, hp, hs, hip, his]

/-- Folding the parser loop over marker-free lines from the initial
accumulator returns the initial accumulator. -/
lemma foldl_processLine_no_marker (lines : List String)
    (h : ∀ l ∈ lines, pyStartsWith (pyStrip l) "plan:" = false ∧
      pyStartsWith (pyStrip l) "sub_questions:" = false) :
    lines.foldl processLine ⟨false, false, [], []⟩ = ⟨false, false, [], []⟩ := by
  induction lines with
  | nil => rfl
  | cons x xs ih =>
      have hx := h x (List.mem_cons_self x xs)
      simp only [List.foldl_cons,
        processLine_inert ⟨false, false, [], []⟩ x hx.1 hx.2 rfl rfl]
      exact ih (fun l hl => h l (List.mem_cons_of_mem x hl))

/-- A string that starts with "-" cannot have a digit as its first
character. -/
lemma firstIsDigit_of_dash (s : String) (h : pyStartsWith s "-" = true) :
    firstIsDigit s = false := by
  have hdash : ("-".toList : List Char) = [Char.ofNat 45] := by decide
  unfold pyStartsWith at h
  rw [hdash] at h
  unfold firstIsDigit
  rcases hl : s.toList with _ | ⟨c, cs⟩
  · rfl
  · rw [hl] at h
    have hc : c = Char.ofNat 45 := by
      have hb := (Bool.and_eq_true _ _).mp h
      exact (eq_of_beq hb.1).symm
    show c.isDigit = false
    rw [hc]
    decide

/-! ## Claim theorems -/

/-- C7: the plan parser is a total function that never errors: it returns
`(none, none)` on the empty input, returns `(none, none)` on input none of
whose lines opens a section (only prose), and for every input each result
field is `none` exactly when its collected list ended empty. -/
theorem c7_parser_degrades_to_null :
    parse_plan_and_subquestions "" = (none, none) ∧
    (∀ content : String,
      (∀ l ∈ pySplitLines content,
        pyStartsWith (pyStrip l) "plan:" = false ∧
        pyStartsWith (pyStrip l) "sub_questions:" = false) →
      parse_plan_and_subquestions content = (none, none)) ∧
    (∀ content : String,
      ((parse_plan_and_subquestions content).1 = none ↔
        (parseAcc content).plan_lines = []) ∧
      ((parse_plan_and_subquestions content).2 = none ↔
        (parseAcc content).sub_questions = [])) := by
  refine ⟨by decide, ?_, ?_⟩
  · intro content h
    by_cases hc : content = ""
    · subst hc; decide
    · have hacc : parseAcc content = ⟨false, false, [], []⟩ :=
        foldl_processLine_no_marker (pySplitLines content) h
      simp [parse_plan_and_subquestions, hc, hacc]
  · intro content
    by_cases hc : content = ""
    · subst hc; decide
    · constructor
      · simp only [parse_plan_and_subquestions, if_neg hc]
        split <;> simp_all
      · simp only [parse_plan_and_subquestions, if_neg hc]
        split <;> simp_all

/-- C7 witness: the prose-only input "just some prose" yields `(none, none)`. -/
theorem c7_parser_degrades_to_null_witness :
    parse_plan_and_subquestions "just some prose\nmore prose" = (none, none) :=
  c7_parser_degrades_to_null.2.1 "just some prose\nmore prose" (by decide)

/-- C2 counterexample: the claim says a header followed by further text on
the same line is not a mode switch, but the code matches headers with
`startswith`, so the line "plan: extra" — whose trimmed form is not exactly
"plan:" — does open plan-collection mode. -/
theorem c2_counterexample :
    (processLine ⟨false, false, [], []⟩ "plan: extra").in_plan = true ∧
    pyStrip "plan: extra" ≠ "plan:" := by
  constructor
  · decide
  · decide

/-- C2 amended: plan-collection mode is opened (and sub-question mode closed)
if and only if the trimmed line starts with "plan:", and sub-question mode is
opened (and plan mode closed) if and only if the trimmed line does not start
with "plan:" but starts with "sub_questions:"; a header may be followed by
further text on the same line, but a header embedded after other text is not
a mode switch. -/
theorem c2_amended_mode_switch (acc : ParseAcc) (l : String) :
    ((processLine acc l).in_plan, (processLine acc l).in_subq) =
      (if pyStartsWith (pyStrip l) "plan:" = true then (true, false)
       else if pyStartsWith (pyStrip l) "sub_questions:" = true then (false, true)
       else (acc.in_plan, acc.in_subq)) := by
  unfold processLine
  split_ifs <;> simp_all
  split_ifs <;> simp_all

/-- C8 counterexample: the claim says a sub-question line is stripped of only
its leading "- " (and surrounding quotes), but Python's `strip("- ")` removes
every leading and trailing "-" or space character: on the line "- a -" the
code collects "a", not "a -". -/
theorem c8_counterexample :
    parse_plan_and_subquestions "sub_questions:\n- a -" = (none, some ["a"]) ∧
    claimedSubStrip "- a -" = "a -" ∧
    (parse_plan_and_subquestions "sub_questions:\n- a -").2 ≠
      some [claimedSubStrip "- a -"] := by
  refine ⟨by decide, by decide, by decide⟩

/-- C8 amended: in sub-question mode every line starting with "-" is appended
after stripping all leading and trailing "-" and space characters and then
all leading and trailing quote characters; in plan mode every non-empty line
whose first character is a digit is appended (as its trimmed form); on the
spec's example input the parser returns plan "1. A\n2. B" and sub-questions
["x", "y"]. -/
theorem c8_amended_line_collection :
    (∀ (acc : ParseAcc) (l : String), acc.in_subq = true →
      pyStartsWith (pyStrip l) "plan:" = false →
      pyStartsWith (pyStrip l) "sub_questions:" = false →
      pyStartsWith (pyStrip l) "-" = true →
      (processLine acc l).sub_questions = acc.sub_questions ++
        [stripChars [Char.ofNat 34]
          (stripChars [Char.ofNat 45, Char.ofNat 32] (pyStrip l))]) ∧
    (∀ (acc : ParseAcc) (l : String), acc.in_plan = true →
      pyStartsWith (pyStrip l) "plan:" = false →
      pyStartsWith (pyStrip l) "sub_questions:" = false →
      firstIsDigit (pyStrip l) = true →
      (processLine acc l).plan_lines = acc.plan_lines ++ [pyStrip l]) ∧
    parse_plan_and_subquestions "plan:\n1. A\n2. B\nsub_questions:\n- \"x\"\n- y" =
      (some "1. A\n2. B", some ["x", "y"]) := by
  refine ⟨?_, ?_, by decide⟩
  · intro acc l hsubq hp hs hdash
    have hdig : firstIsDigit (pyStrip l) = false := firstIsDigit_of_dash _ hdash
    simp [processLine, hp, hs, hdig, hsubq, hdash]
  · intro acc l hplan hp hs hdig
    simp [processLine, hp, hs, hdig, hplan]

/-- C8 amended witness: applying the sub-question collection rule to the
concrete line "- a -" in sub-question mode appends "a". -/
theorem c8_amended_line_collection_witness :
    (processLine ⟨false, true, [], []⟩ "- a -").sub_questions =
      [] ++ [stripChars [Char.ofNat 34]
        (stripChars [Char.ofNat 45, Char.ofNat 32] (pyStrip "- a -"))] :=
  c8_amended_line_collection.1 ⟨false, true, [], []⟩ "- a -" rfl
    (by decide) (by decide) (by decide)

/-- If a predicate holds for no element of a list, `find?` returns `none`. -/
lemma find?_eq_none_of_all_false {α : Type} (p : α → Bool) (l : List α)
    (h : ∀ x ∈ l, p x = false) : l.find? p = none :=
  List.find?_eq_none.mpr (fun x hx => by simp [h x hx])

/-- `find?` skips a failing first segment of an append. -/
lemma find?_append_of_none {α : Type} (p : α → Bool) (l1 l2 : List α)
    (h : l1.find? p = none) : (l1 ++ l2).find? p = l2.find? p := by
  induction l1 with
  | nil => rfl
  | cons a as ih =>
      rcases ha : p a with _ | _
      · simp only [List.cons_append, List.find?, ha]
        apply ih
        simpa [List.find?, ha] using h
      · simp [List.find?, ha] at h

/-- C6: the Retrieve stage sets `context` to the content of the most recent
tool-result message of the capability's response, scanning in reverse, and to
the empty string when the response contains no tool-result message. -/
theorem c6_context_extraction :
    (∀ (cap : Cap) (s : QAState),
      (retrieval_node cap s).context = some (some (extractContext
        (cap [AgentMsg.human
          (userContent s.messages s.question s.plan s.sub_questions)])))) ∧
    (∀ messages : List AgentMsg,
      (∀ m ∈ messages, m.isTool = false) → extractContext messages = "") ∧
    (∀ (pre : List AgentMsg) (c : String) (post : List AgentMsg),
      (∀ m ∈ post, m.isTool = false) →
      extractContext (pre ++ AgentMsg.tool c :: post) = c) := by
  refine ⟨fun cap s => rfl, ?_, ?_⟩
  · intro messages h
    have hf : messages.reverse.find? AgentMsg.isTool = none :=
      find?_eq_none_of_all_false _ _
        (fun x hx => h x (List.mem_reverse.mp hx))
    simp [extractContext, hf]
  · intro pre c post h
    have hrev : (pre ++ AgentMsg.tool c :: post).reverse =
        post.reverse ++ AgentMsg.tool c :: pre.reverse := by
      simp
    have hnone : post.reverse.find? AgentMsg.isTool = none :=
      find?_eq_none_of_all_false _ _
        (fun x hx => h x (List.mem_reverse.mp hx))
    have hfind : (post.reverse ++ AgentMsg.tool c :: pre.reverse).find?
        AgentMsg.isTool = some (AgentMsg.tool c) := by
      rw [find?_append_of_none _ _ _ hnone]
      simp [List.find?, AgentMsg.isTool]
    simp [extractContext, hrev, hfind, AgentMsg.content]

/-- C6 witness: on a concrete response with one tool message followed by an
AI message, the extracted context is the tool content. -/
theorem c6_context_extraction_witness :
    extractContext
      ([AgentMsg.human "h"] ++ AgentMsg.tool "CTX" :: [AgentMsg.ai "a"]) =
      "CTX" :=
  c6_context_extraction.2.2 [AgentMsg.human "h"] "CTX" [AgentMsg.ai "a"]
    (by decide)

/-- When a response contains no AI message, the last-AI extraction yields the
empty string. -/
lemma extract_last_ai_content_eq_empty (messages : List AgentMsg)
    (h : ∀ m ∈ messages, m.isAi = false) :
    extract_last_ai_content messages = "" := by
  have hf : messages.reverse.find? AgentMsg.isAi = none :=
    find?_eq_none_of_all_false _ _
      (fun x hx => h x (List.mem_reverse.mp hx))
  simp [extract_last_ai_content, hf]

/-- C10: when the capability's response contains no AI message, Summarize
sets `draft_answer` to the empty string and Verify sets `answer` to the empty
string; both output fields are always set to some string by their stage,
never left null. -/
theorem c10_empty_fallback_outputs :
    (∀ (cap : Cap) (s : QAState),
      (∀ m ∈ cap [AgentMsg.human (sumUserContent s)], m.isAi = false) →
      (summarization_node cap s).draft_answer = some (some "")) ∧
    (∀ (cap : Cap) (s : QAState),
      (∀ m ∈ cap [AgentMsg.human (verUserContent s)], m.isAi = false) →
      (verification_node cap s).answer = some (some "")) ∧
    (∀ (cap : Cap) (s : QAState), ∃ d : String,
      (summarization_node cap s).draft_answer = some (some d)) ∧
    (∀ (cap : Cap) (s : QAState), ∃ a : String,
      (verification_node cap s).answer = some (some a)) := by
  refine ⟨?_, ?_, fun cap s => ⟨_, rfl⟩, fun cap s => ⟨_, rfl⟩⟩
  · intro cap s h
    simp [summarization_node, extract_last_ai_content_eq_empty _ h]
  · intro cap s h
    simp [verification_node, extract_last_ai_content_eq_empty _ h]

/-- C10 witness: with a capability that answers only with a tool message, the
Summarize stage produces the empty draft answer on a concrete state. -/
theorem c10_empty_fallback_outputs_witness :
    (summarization_node (fun _ => [AgentMsg.tool "t"])
      ⟨"q", none, none, none, none, none, []⟩).draft_answer =
      some (some "") :=
  c10_empty_fallback_outputs.1 (fun _ => [AgentMsg.tool "t"])
    ⟨"q", none, none, none, none, none, []⟩ (by decide)

/-- C9: the deltas of the Plan, Retrieve and Summarize stages leave
`messages` unchanged when merged; the Verify stage is the only one whose
delta touches `messages` (appending a single assistant entry); and no
stage's delta modifies `question`. -/
theorem c9_frame_messages_question :
    ∀ (pc rc sc vc : Cap) (s : QAState),
      (applyDelta s (planner_node pc s)).messages = s.messages ∧
      (applyDelta s (retrieval_node rc s)).messages = s.messages ∧
      (applyDelta s (summarization_node sc s)).messages = s.messages ∧
      (∃ m : Msg, (verification_node vc s).messages = some [m] ∧
        m.role = "assistant") ∧
      (applyDelta s (planner_node pc s)).question = s.question ∧
      (applyDelta s (retrieval_node rc s)).question = s.question ∧
      (applyDelta s (summarization_node sc s)).question = s.question ∧
      (applyDelta s (verification_node vc s)).question = s.question := by
  intro pc rc sc vc s
  refine ⟨rfl, rfl, rfl, ⟨_, rfl, rfl⟩, rfl, rfl, rfl, rfl⟩

/-- C3 counterexample: on a history of 4 full turns (8 entries) the Plan
stage's message build differs from the build the claim describes over the
most recent 6 turns (which here would be the whole history): the code windows
`messages_history[-6:]`, i.e. the last 6 entries, not the last 6 turns. -/
theorem c3_counterexample :
    plannerAgentMessages
      [Msg.mk "user" "u1", Msg.mk "assistant" "a1",
       Msg.mk "user" "u2", Msg.mk "assistant" "a2",
       Msg.mk "user" "u3", Msg.mk "assistant" "a3",
       Msg.mk "user" "u4", Msg.mk "assistant" "a4"] "q" ≠
    plannerAgentMessagesClaimed
      [Msg.mk "user" "u1", Msg.mk "assistant" "a1",
       Msg.mk "user" "u2", Msg.mk "assistant" "a2",
       Msg.mk "user" "u3", Msg.mk "assistant" "a3",
       Msg.mk "user" "u4", Msg.mk "assistant" "a4"] "q" := by
  decide

/-- C3 amended: the Plan stage builds its message sequence from the question
plus only the most recent 6 entries of the `messages` history (3 turns when
turns alternate user/assistant), discarding all older history for this stage
only: prepending any older history before a 6-entry window leaves the build
unchanged. -/
theorem c3_amended_six_entry_window (older recent : List Msg)
    (question : String) (h : recent.length = 6) :
    plannerAgentMessages (older ++ recent) question =
      plannerAgentMessages recent question := by
  unfold plannerAgentMessages
  rw [List.length_append, h, Nat.add_sub_cancel, List.drop_left,
    Nat.sub_self, List.drop_zero]

/-- C3 amended witness: with one older entry before a 6-entry window, the
Plan stage's message build equals the build over the window alone. -/
theorem c3_amended_six_entry_window_witness :
    plannerAgentMessages
      ([Msg.mk "user" "u0"] ++
       [Msg.mk "user" "u1", Msg.mk "assistant" "a1",
        Msg.mk "user" "u2", Msg.mk "assistant" "a2",
        Msg.mk "user" "u3", Msg.mk "assistant" "a3"]) "q" =
    plannerAgentMessages
      [Msg.mk "user" "u1", Msg.mk "assistant" "a1",
       Msg.mk "user" "u2", Msg.mk "assistant" "a2",
       Msg.mk "user" "u3", Msg.mk "assistant" "a3"] "q" :=
  c3_amended_six_entry_window [Msg.mk "user" "u0"]
    [Msg.mk "user" "u1", Msg.mk "assistant" "a1",
     Msg.mk "user" "u2", Msg.mk "assistant" "a2",
     Msg.mk "user" "u3", Msg.mk "assistant" "a3"] "q" (by decide)

/-- `String.toList` distributes over append. -/
lemma toList_append (a b : String) : (a ++ b).toList = a.toList ++ b.toList :=
  rfl

/-- C4 counterexample: with a history of exactly one prior turn (2 entries,
one user and one assistant), the claim's condition "two or more prior turns
exist" fails, yet the code's condition `len(messages_history) >= 2` counts
entries, so the continuity hint is injected into the composite query. -/
theorem c4_counterexample :
    contextNote [Msg.mk "user" "q1", Msg.mk "assistant" "a1"] ≠ "" ∧
    ([Msg.mk "user" "q1", Msg.mk "assistant" "a1"] : List Msg).length / 2 = 1 ∧
    ("[Previous answer excerpt: a1...]").toList <:+:
      (userContent [Msg.mk "user" "q1", Msg.mk "assistant" "a1"]
        "q" none none).toList := by
  refine ⟨by decide, by decide, by decide⟩

/-- C4 amended: the Retrieve stage's composite query text contains the
question, the plan (when set), and the rendering of the sub-questions —
which is the literal marker "None" when `sub_questions` is null — and it
contains the most recent assistant answer truncated to its first 200
characters as a continuity hint exactly when the history has at least two
entries and its most recent assistant entry has non-empty content. -/
theorem c4_amended_composite_query :
    ∀ (h : List Msg) (q : String) (p : Option String)
      (sq : Option (List String)),
      (q.toList <:+: (userContent h q p sq).toList) ∧
      (∀ ps, p = some ps → ps.toList <:+: (userContent h q p sq).toList) ∧
      (sq = none → formattedSubqs sq = "None") ∧
      ((formattedSubqs sq).toList <:+: (userContent h q p sq).toList) ∧
      (∀ s, lastAssistantContent h = some s → s ≠ "" → 2 ≤ h.length →
        ("[Previous answer excerpt: " ++ pyTake s 200 ++ "...]").toList <:+:
          (userContent h q p sq).toList) ∧
      (¬(2 ≤ h.length ∧ ∃ s, lastAssistantContent h = some s ∧ s ≠ "") →
        contextNote h = "") := by
  intro h q p sq
  refine ⟨?_, ?_, ?_, ?_, ?_, ?_⟩
  · exact ⟨(contextNote h ++ "Question: ").toList,
      ("\n\nPlan:\n" ++ pyStrOptStr p ++ "\n\nSub-Questions:\n" ++
        formattedSubqs sq).toList,
      by simp [userContent, toList_append, List.append_assoc]⟩
  · intro ps hp
    subst hp
    exact ⟨(contextNote h ++ "Question: " ++ q ++ "\n\nPlan:\n").toList,
      ("\n\nSub-Questions:\n" ++ formattedSubqs sq).toList,
      by simp [userContent, toList_append, pyStrOptStr, List.append_assoc]⟩
  · intro hsq; subst hsq; rfl
  · exact ⟨(contextNote h ++ "Question: " ++ q ++ "\n\nPlan:\n" ++
        pyStrOptStr p ++ "\n\nSub-Questions:\n").toList, [],
      by simp [userContent, toList_append, List.append_assoc]⟩
  · intro s hsome hne hlen
    have hcn : contextNote h =
        "\n[Previous answer excerpt: " ++ pyTake s 200 ++ "...]\n" := by
      simp [contextNote, hlen, hsome, hne]
    have h1 : ("\n[Previous answer excerpt: ").toList =
        "\n".toList ++ "[Previous answer excerpt: ".toList := by decide
    have h2 : ("...]\n").toList = "...]".toList ++ "\n".toList := by decide
    exact ⟨"\n".toList,
      ("\n" ++ "Question: " ++ q ++ "\n\nPlan:\n" ++ pyStrOptStr p ++
        "\n\nSub-Questions:\n" ++ formattedSubqs sq).toList,
      by simp [userContent, hcn, toList_append, h1, h2, List.append_assoc]⟩
  · intro hn
    unfold contextNote
    split_ifs with hlen
    · cases hs : lastAssistantContent h with
      | none => rfl
      | some s =>
          have hse : s = "" := by
            by_contra hne
            exact hn ⟨hlen, s, hs, hne⟩
          simp [hse]
    · rfl

/-- C4 amended witness: on a concrete two-entry history with assistant answer
"a1", the composite query for question "q" with null plan and sub-questions
contains the question, the "None" rendering and the continuity hint. -/
theorem c4_amended_composite_query_witness :
    ("q" : String).toList <:+:
      (userContent [Msg.mk "user" "q1", Msg.mk "assistant" "a1"]
        "q" none none).toList ∧
    ("[Previous answer excerpt: " ++ pyTake "a1" 200 ++ "...]").toList <:+:
      (userContent [Msg.mk "user" "q1", Msg.mk "assistant" "a1"]
        "q" none none).toList :=
  ⟨(c4_amended_composite_query
      [Msg.mk "user" "q1", Msg.mk "assistant" "a1"] "q" none none).1,
   (c4_amended_composite_query
      [Msg.mk "user" "q1", Msg.mk "assistant" "a1"] "q" none none).2.2.2.2.1
     "a1" (by decide) (by decide) (by decide)⟩

/-- C5 counterexample: a supplied empty-string session identifier is not
returned unchanged: Python's truthiness test `session_id if session_id else
str(uuid.uuid4())` treats the empty string as absent, so a fresh identifier
is generated and returned instead. -/
theorem c5_counterexample :
    (run_qa_flow (fun _ => []) (fun _ => []) (fun _ => []) (fun _ => [])
        (fun _ => none) "q" (some "") "fresh-id").1.session_id = "fresh-id" ∧
    ("fresh-id" : String) ≠ "" := by
  refine ⟨rfl, by decide⟩

/-- C5 amended: `run` returns a record with the fields answer, draft_answer,
context, plan, sub_questions and session_id (the `RunResult` structure);
when `session_id` is omitted the returned identifier is the freshly
generated token, and when a non-empty `session_id` is supplied that same
identifier is returned unchanged (a supplied empty string is treated as
omitted). -/
theorem c5_amended_session_id :
    ∀ (pc rc sc vc : Cap) (store : Store) (q f : String),
      ((run_qa_flow pc rc sc vc store q none f).1.session_id = f) ∧
      (∀ s : String, s ≠ "" →
        (run_qa_flow pc rc sc vc store q (some s) f).1.session_id = s) := by
  intro pc rc sc vc store q f
  constructor
  · rfl
  · intro s hs
    simp [run_qa_flow, threadIdFor, hs]

/-- C5 amended witness: supplying the non-empty session identifier "sid"
returns "sid" unchanged. -/
theorem c5_amended_session_id_witness :
    (run_qa_flow (fun _ => []) (fun _ => []) (fun _ => []) (fun _ => [])
      (fun _ => none) "q" (some "sid") "fresh-id").1.session_id = "sid" :=
  (c5_amended_session_id (fun _ => []) (fun _ => []) (fun _ => [])
    (fun _ => []) (fun _ => none) "q" "fresh-id").2 "sid" (by decide)

/-- One graph run appends exactly one assistant entry, carrying the final
answer, to the history of its initial state. -/
lemma runGraph_messages (pc rc sc vc : Cap) (s : QAState) :
    ∃ a : String,
      (runGraph pc rc sc vc s).messages = s.messages ++ [Msg.mk "assistant" a] ∧
      (runGraph pc rc sc vc s).answer = some a :=
  ⟨_, rfl, rfl⟩

/-- C1: on a fresh session (no prior checkpoint for the resolved thread id),
the history after one run is exactly the user question followed by the final
assistant answer; running again with the returned session identifier yields
a history that is the previous one with exactly the new user question and
the new assistant answer appended. -/
theorem c1_session_history (pc rc sc vc : Cap) (store : Store)
    (q1 q2 : String) (sid : Option String) (f1 f2 : String)
    (hfresh : store (threadIdFor sid f1) = none)
    (hne : threadIdFor sid f1 ≠ "") :
    (∃ a1 : String,
      (run_qa_flow pc rc sc vc store q1 sid f1).1.messages =
        [Msg.mk "user" q1, Msg.mk "assistant" a1] ∧
      (run_qa_flow pc rc sc vc store q1 sid f1).1.answer = some a1) ∧
    (∃ a2 : String,
      (run_qa_flow pc rc sc vc (run_qa_flow pc rc sc vc store q1 sid f1).2
          q2 (some (run_qa_flow pc rc sc vc store q1 sid f1).1.session_id)
          f2).1.messages =
        (run_qa_flow pc rc sc vc store q1 sid f1).1.messages ++
          [Msg.mk "user" q2, Msg.mk "assistant" a2] ∧
      (run_qa_flow pc rc sc vc (run_qa_flow pc rc sc vc store q1 sid f1).2
          q2 (some (run_qa_flow pc rc sc vc store q1 sid f1).1.session_id)
          f2).1.answer = some a2) := by
  set tid := threadIdFor sid f1 with htid
  set s0 : QAState :=
    ⟨q1, none, none, none, none, none, [Msg.mk "user" q1]⟩ with hs0
  set sf1 := runGraph pc rc sc vc s0 with hsf1
  obtain ⟨a1, ha1m, ha1a⟩ := runGraph_messages pc rc sc vc s0
  rw [← hsf1] at ha1m ha1a
  have hm1msgs : sf1.messages =
      [Msg.mk "user" q1, Msg.mk "assistant" a1] := by
    rw [ha1m, hs0]
    rfl
  have hm1 : (run_qa_flow pc rc sc vc store q1 sid f1).1.messages =
      sf1.messages := by
    simp only [run_qa_flow]
    rw [hfresh]
  have ha1 : (run_qa_flow pc rc sc vc store q1 sid f1).1.answer =
      sf1.answer := by
    simp only [run_qa_flow]
    rw [hfresh]
  have hsid1 : (run_qa_flow pc rc sc vc store q1 sid f1).1.session_id =
      tid := rfl
  have hstore1 : (run_qa_flow pc rc sc vc store q1 sid f1).2 =
      fun k => if k = tid then some sf1 else store k := by
    simp only [run_qa_flow]
    rw [hfresh]
  have hmne : sf1.messages ≠ [] := by
    rw [hm1msgs]
    simp
  have htid2 : threadIdFor (some tid) f2 = tid := by
    simp [threadIdFor, hne]
  set s1 : QAState :=
    ⟨q2, none, none, none, none, none,
      sf1.messages ++ [Msg.mk "user" q2]⟩ with hs1
  obtain ⟨a2, ha2m, ha2a⟩ := runGraph_messages pc rc sc vc s1
  have hm2 : (run_qa_flow pc rc sc vc
      (fun k => if k = tid then some sf1 else store k) q2 (some tid)
      f2).1.messages = (runGraph pc rc sc vc s1).messages := by
    simp only [run_qa_flow, htid2, if_pos]
    rw [if_neg hmne]
  have ha2 : (run_qa_flow pc rc sc vc
      (fun k => if k = tid then some sf1 else store k) q2 (some tid)
      f2).1.answer = (runGraph pc rc sc vc s1).answer := by
    simp only [run_qa_flow, htid2, if_pos]
    rw [if_neg hmne]
  refine ⟨⟨a1, ?_, ?_⟩, ⟨a2, ?_, ?_⟩⟩
  · rw [hm1, hm1msgs]
  · rw [ha1, ha1a]
  · rw [hstore1, hsid1, hm2, ha2m, hs1, hm1]
    simp
  · rw [hstore1, hsid1, ha2, ha2a]

/-- C1 witness: a concrete fresh run with capabilities that always answer
with a single AI message, followed by a resumed run with the returned
session identifier. -/
theorem c1_session_history_witness :
    (∃ a1 : String,
      (run_qa_flow (fun _ => [AgentMsg.ai "ans1"]) (fun _ => [])
          (fun _ => []) (fun _ => [AgentMsg.ai "ans1"]) (fun _ => none)
          "q1" none "t1").1.messages =
        [Msg.mk "user" "q1", Msg.mk "assistant" a1] ∧
      (run_qa_flow (fun _ => [AgentMsg.ai "ans1"]) (fun _ => [])
          (fun _ => []) (fun _ => [AgentMsg.ai "ans1"]) (fun _ => none)
          "q1" none "t1").1.answer = some a1) ∧
    (∃ a2 : String,
      (run_qa_flow (fun _ => [AgentMsg.ai "ans1"]) (fun _ => [])
          (fun _ => []) (fun _ => [AgentMsg.ai "ans1"])
          (run_qa_flow (fun _ => [AgentMsg.ai "ans1"]) (fun _ => [])
            (fun _ => []) (fun _ => [AgentMsg.ai "ans1"]) (fun _ => none)
            "q1" none "t1").2
          "q2" (some (run_qa_flow (fun _ => [AgentMsg.ai "ans1"])
            (fun _ => []) (fun _ => []) (fun _ => [AgentMsg.ai "ans1"])
            (fun _ => none) "q1" none "t1").1.session_id)
          "t2").1.messages =
        (run_qa_flow (fun _ => [AgentMsg.ai "ans1"]) (fun _ => [])
          (fun _ => []) (fun _ => [AgentMsg.ai "ans1"]) (fun _ => none)
          "q1" none "t1").1.messages ++
          [Msg.mk "user" "q2", Msg.mk "assistant" a2] ∧
      (run_qa_flow (fun _ => [AgentMsg.ai "ans1"]) (fun _ => [])
          (fun _ => []) (fun _ => [AgentMsg.ai "ans1"])
          (run_qa_flow (fun _ => [AgentMsg.ai "ans1"]) (fun _ => [])
            (fun _ => []) (fun _ => [AgentMsg.ai "ans1"]) (fun _ => none)
            "q1" none "t1").2
          "q2" (some (run_qa_flow (fun _ => [AgentMsg.ai "ans1"])
            (fun _ => []) (fun _ => []) (fun _ => [AgentMsg.ai "ans1"])
            (fun _ => none) "q1" none "t1").1.session_id)
          "t2").1.answer = some a2) :=
  c1_session_history (fun _ => [AgentMsg.ai "ans1"]) (fun _ => [])
    (fun _ => []) (fun _ => [AgentMsg.ai "ans1"]) (fun _ => none)
    "q1" "q2" none "t1" "t2" rfl (by decide)

end QAPipeline
